import Mathlib

/-!
Shallow embedding of `jupiter-core`'s Sega AMM adapter
(`src/jupiter-core/src/amms/sega_amm.rs`) together with the parts of the
`sega` module (pool state, curve calculator, fees) that the adapter calls.
Machine integers are modelled as `Nat`; `u64` wrap-around is made explicit
with `% 2^64` where the Rust arithmetic can wrap; fallible Rust code
returns `Option`/`Except`.
-/

namespace SegaSpec

/-- Ledger addresses.  `raw` stands for an ordinary 32-byte address;
`derived` stands for an address produced by program-address derivation
(`Pubkey::create_program_address`), kept as a distinct constructor so that
derived authorities are never confused with raw addresses. -/
inductive Pubkey where
  | raw (n : Nat)
  | derived (bump : Nat) (program : Pubkey)
deriving DecidableEq

/-- Shorthand for a raw address. -/
def pk (n : Nat) : Pubkey := Pubkey.raw n

deriving instance DecidableEq for Except

/-- The modulus of 64-bit machine integers. -/
def U64_MOD : Nat := 18446744073709551616

/-- Rust `u64` addition without overflow checks wraps modulo `2^64`
(the `+` in `vault_amount_without_fee` is an unchecked addition). -/
def u64wrap_add (a b : Nat) : Nat := (a + b) % U64_MOD

/-- Rust `u64::checked_sub`: `none` on underflow, never wraps. -/
def checked_sub (a b : Nat) : Option Nat :=
  if b ≤ a then some (a - b) else none

/-- Rust `u64::try_from` / `try_into` for a wide intermediate value. -/
def u64_try_from (n : Nat) : Except String Nat :=
  if n < U64_MOD then Except.ok n else Except.error "out of range integral type conversion attempted"

/-- Rust `i64 as u64` cast: two's-complement reinterpretation, i.e. the
value modulo `2^64` (a negative timestamp becomes a value `≥ 2^63`). -/
def cast_i64_u64 (t : Int) : Nat := (t % (18446744073709551616 : Int)).toNat

/-- The fields of the on-chain `PoolState` account that `sega_amm.rs`
reads.  The layout itself lives in `sega/pool.rs`. -/
structure PoolState where
  amm_config : Pubkey
  token_0_vault : Pubkey
  token_1_vault : Pubkey
  token_0_mint : Pubkey
  token_1_mint : Pubkey
  token_0_program : Pubkey
  token_1_program : Pubkey
  observation_key : Pubkey
  auth_bump : Nat
  status : Nat
  open_time : Nat
  protocol_fees_token_0 : Nat
  protocol_fees_token_1 : Nat
  fund_fees_token_0 : Nat
  fund_fees_token_1 : Nat
deriving DecidableEq

/-- Status bits of the pool bitmask (`sega/pool.rs`). -/
inductive PoolStatusBitIndex where
  | Deposit
  | Withdraw
  | Swap
deriving DecidableEq

/-- Bit position of each status bit. -/
def PoolStatusBitIndex.toBitPos : PoolStatusBitIndex → Nat
  | .Deposit => 0
  | .Withdraw => 1
  | .Swap => 2

/-- Modelled from the spec: `sega/pool.rs` is not under `src/`; the spec
requires the trading-status bit of the status bitmask to be set for
trading, so `get_status_by_bit` tests the corresponding bit of `status`. -/
def PoolState.get_status_by_bit (pool : PoolState) (bit : PoolStatusBitIndex) : Bool :=
  pool.status.testBit bit.toBitPos

/-- The fee-rate fields of the on-chain `AmmConfig` account
(`sega/amm_config.rs`): fixed-point rates over `FEE_DENOMINATOR`. -/
structure AmmConfig where
  trade_fee_rate : Nat
  protocol_fee_rate : Nat
  fund_fee_rate : Nat
deriving DecidableEq

/-- One transfer-fee schedule entry: effective epoch, absolute cap, and a
basis-point rate. -/
structure TransferFee where
  epoch : Nat
  maximum_fee : Nat
  transfer_fee_basis_points : Nat
deriving DecidableEq

/-- A token mint's transfer-fee extension: an older and a newer schedule,
versioned by effective epoch. -/
structure TransferFeeConfig where
  older_transfer_fee : TransferFee
  newer_transfer_fee : TransferFee
deriving DecidableEq

/-- Modelled from the spec: the transfer-fee computation lives in the
token-extension library, outside `src/`.  Fee for amount `A` at epoch `E`
is `min(cap, floor(A * rate_bps / 10000))`, using the most recent schedule
whose effective epoch is `≤ E`. -/
def TransferFeeConfig.calculate_epoch_fee (cfg : TransferFeeConfig) (epoch amount : Nat) :
    Option Nat :=
  let tf := if cfg.newer_transfer_fee.epoch ≤ epoch then cfg.newer_transfer_fee
            else cfg.older_transfer_fee
  some (min tf.maximum_fee (amount * tf.transfer_fee_basis_points / 10000))

/-- The part of a decoded token-2022 mint that `quote` reads: the optional
transfer-fee extension (`get_extension::<TransferFeeConfig>().ok()`). -/
structure MintState where
  transfer_fee_config : Option TransferFeeConfig
deriving DecidableEq

/-- The part of a decoded token account (vault) that `update` reads. -/
structure TokenAccount where
  amount : Nat
  frozen : Bool
deriving DecidableEq

/-- Raw ledger-account bytes, discriminated by what they decode to: a
fixed-layout account either decodes to exactly one of the typed views
(discriminator and layout match) or to none of them. -/
inductive AccountData where
  | poolData (p : PoolState)
  | configData (c : AmmConfig)
  | mintData (m : MintState)
  | tokenData (t : TokenAccount)
  | malformed
deriving DecidableEq

/-- Modelled from the spec: the anchor account decoder for `PoolState`
(`sega/pool.rs` layout) signals a decode failure unless the layout and
discriminator match. -/
def PoolState.try_deserialize : AccountData → Option PoolState
  | .poolData p => some p
  | _ => none

/-- Modelled from the spec: the anchor account decoder for `AmmConfig`
(`sega/amm_config.rs` layout). -/
def AmmConfig.try_deserialize : AccountData → Option AmmConfig
  | .configData c => some c
  | _ => none

/-- Modelled from the spec: `StateWithExtensionsOwned::<Mint>::unpack`. -/
def unpack_mint : AccountData → Option MintState
  | .mintData m => some m
  | _ => none

/-- Modelled from the spec: `StateWithExtensions::<Account>::unpack`. -/
def unpack_token_account : AccountData → Option TokenAccount
  | .tokenData t => some t
  | _ => none

/-- The address → bytes mapping handed to `update`. -/
def AccountMap := Pubkey → Option AccountData

/-- `jupiter_amm_interface::try_get_account_data`, modelled as a lookup. -/
def try_get_account_data (m : AccountMap) (k : Pubkey) : Option AccountData := m k

/-- The `TokenMints` bundle cached by `update`. -/
structure TokenMints where
  token0 : Pubkey
  token1 : Pubkey
  token0_mint : MintState
  token1_mint : MintState
  token0_program : Pubkey
  token1_program : Pubkey
deriving DecidableEq

/-- The `SegaAmm` instance state.  The shared clock (`epoch`,
`timestamp` atomics) is externally owned; its values read at quote time
are passed to `quote` explicitly. -/
structure SegaAmm where
  key : Pubkey
  pool_state : PoolState
  amm_config : Option AmmConfig
  vault_0_amount : Option Nat
  vault_1_amount : Option Nat
  token_mints_and_token_programs : Option TokenMints
  program_id : Pubkey
deriving DecidableEq

/-- A keyed ledger account handed to `from_keyed_account`. -/
structure Account where
  data : AccountData
  owner : Pubkey
deriving DecidableEq

/-- A keyed ledger account. -/
structure KeyedAccount where
  key : Pubkey
  account : Account
deriving DecidableEq

/-- `SegaAmm::from_keyed_account`: decode the pool state and start with
config, vault balances and mints absent. -/
def from_keyed_account (keyed_account : KeyedAccount) : Except String SegaAmm :=
  match PoolState.try_deserialize keyed_account.account.data with
  | none => Except.error "Failed to deserialize PoolState"
  | some pool_state =>
      Except.ok
        { key := keyed_account.key
          pool_state := pool_state
          amm_config := none
          vault_0_amount := none
          vault_1_amount := none
          token_mints_and_token_programs := none
          program_id := keyed_account.account.owner }

/-- `vault_amount_without_fee` (sega_amm.rs lines 346-355): each side is
`vault.checked_sub(protocol_fees + fund_fees)`; the inner `+` is an
unchecked `u64` addition and therefore wraps modulo `2^64`. -/
def vault_amount_without_fee (pool : PoolState) (vault_0 vault_1 : Nat) :
    Option Nat × Option Nat :=
  (checked_sub vault_0 (u64wrap_add pool.protocol_fees_token_0 pool.fund_fees_token_0),
   checked_sub vault_1 (u64wrap_add pool.protocol_fees_token_1 pool.fund_fees_token_1))

/-- The closure `get_unfrozen_token_amount` inside `update`: absent,
undecodable or frozen vault bytes all resolve to `none`. -/
def get_unfrozen_token_amount (account_map : AccountMap) (token_vault : Pubkey) : Option Nat :=
  ((try_get_account_data account_map token_vault).bind unpack_token_account).bind
    (fun token_account => if token_account.frozen then none else some token_account.amount)

/-- `SegaAmm::update`.  Rust mutates `self` in place, so an early `?`
return leaves the fields assigned so far modified; the embedding returns
the (possibly partially updated) state together with the outcome.
The assignment order follows the source: pool state first, then the token
mints (hard failure if absent or undecodable), then the config (hard
failure), then the two vault balances (failures tolerated). -/
def update (self : SegaAmm) (account_map : AccountMap) : SegaAmm × Except String Unit :=
  match try_get_account_data account_map self.key with
  | none => (self, Except.error "Account not found")
  | some pool_state_data =>
  match PoolState.try_deserialize pool_state_data with
  | none => (self, Except.error "Failed to deserialize PoolState")
  | some ps =>
  let s1 : SegaAmm := { self with pool_state := ps }
  match (try_get_account_data account_map ps.token_0_mint).bind unpack_mint with
  | none => (s1, Except.error "Token 0 mint not found")
  | some token0_mint =>
  match (try_get_account_data account_map ps.token_1_mint).bind unpack_mint with
  | none => (s1, Except.error "Token 1 mint not found")
  | some token1_mint =>
  let s2 : SegaAmm :=
    { s1 with
      token_mints_and_token_programs :=
        some
          { token0 := ps.token_0_mint
            token1 := ps.token_1_mint
            token0_mint := token0_mint
            token1_mint := token1_mint
            token0_program := ps.token_0_program
            token1_program := ps.token_1_program } }
  match try_get_account_data account_map ps.amm_config with
  | none => (s2, Except.error "Account not found")
  | some amm_config_data =>
  match AmmConfig.try_deserialize amm_config_data with
  | none => (s2, Except.error "Failed to deserialize AmmConfig")
  | some cfg =>
  let s3 : SegaAmm := { s2 with amm_config := some cfg }
  ({ s3 with
     vault_0_amount := get_unfrozen_token_amount account_map ps.token_0_vault
     vault_1_amount := get_unfrozen_token_amount account_map ps.token_1_vault },
   Except.ok ())

/-- Modelled from the spec: `FEE_DENOMINATOR` lives in `sega/fees.rs`,
not under `src/`.  The spec's scenario uses a trade-fee rate of
`25/10,000`, i.e. `2500` over this denominator. -/
def FEE_DENOMINATOR : Nat := 1000000

/-- Ceiling division on `Nat` (for `b > 0`). -/
def ceil_div (a b : Nat) : Nat := (a + b - 1) / b

/-- The curve calculator's result bundle. -/
structure SwapResult where
  source_amount_swapped : Nat
  destination_amount_swapped : Nat
  trade_fee : Nat
deriving DecidableEq

/-- Modelled from the spec: `CurveCalculator::swap_base_input`
(`sega/constant_product.rs`) is not under `src/`.
`trade_fee = ceil(amount_in * trade_fee_rate / FEE_DENOMINATOR)`;
`amount_in_after_fee = amount_in - trade_fee`;
`destination_amount_swapped =
  floor(reserve_out - reserve_in * reserve_out / (reserve_in + amount_in_after_fee))`,
with the inner quotient exact, which equals
`reserve_out - ceil_div (reserve_in * reserve_out) (reserve_in + amount_in_after_fee)`;
fails (arithmetic error) when an effective reserve is non-positive.
`protocol_fee_rate`/`fund_fee_rate` only split `trade_fee` for
bookkeeping and do not affect the returned amounts. -/
def swap_base_input (source_amount swap_source_amount swap_destination_amount
    trade_fee_rate _protocol_fee_rate _fund_fee_rate : Nat) : Option SwapResult :=
  if swap_source_amount = 0 ∨ swap_destination_amount = 0 then none
  else
    let trade_fee := ceil_div (source_amount * trade_fee_rate) FEE_DENOMINATOR
    let amount_in_after_fee := source_amount - trade_fee
    let denominator := swap_source_amount + amount_in_after_fee
    some
      { source_amount_swapped := source_amount
        destination_amount_swapped :=
          swap_destination_amount -
            ceil_div (swap_source_amount * swap_destination_amount) denominator
        trade_fee := trade_fee }

/-- One transfer-fee deduction step of `quote` (lines 212-220 and
246-254): with a fee extension present, `amount.saturating_sub(fee)`
(`Nat` subtraction saturates exactly like `u64::saturating_sub`);
without one, the amount passes through. -/
def deduct_transfer_fee (cfg : Option TransferFeeConfig) (epoch amount : Nat) :
    Except String Nat :=
  match cfg with
  | some transfer_fee_config =>
      match transfer_fee_config.calculate_epoch_fee epoch amount with
      | some fee => Except.ok (amount - fee)
      | none => Except.error "Fee calculation failure"
  | none => Except.ok amount

/-- The quote produced on success (`jupiter_amm_interface::Quote`
restricted to the fields `SegaAmm::quote` fills). -/
structure Quote where
  in_amount : Nat
  out_amount : Nat
  fee_mint : Pubkey
  fee_amount : Nat
  fee_pct : Rat
deriving DecidableEq

/-- A quote request (`QuoteParams` restricted to the fields read). -/
structure QuoteParams where
  input_mint : Pubkey
  amount : Nat
deriving DecidableEq

/-- Body of `SegaAmm::quote` (lines 173-266) after the direction flag
`zero_for_one = (input_mint == token_0_mint)` has been computed; `amount`
and `input_mint` are the only other uses of the request, and `epoch` and
`timestamp` are the clock values read from the shared atomics.
The step order follows the source exactly: trading check, config, mints,
source transfer-fee deduction, zero-amount check, vault presence, fee
accumulator subtraction, curve, narrowing, destination transfer-fee
deduction, quote assembly (`fee_pct = trade_fee / 100`). -/
def quote_aux (self : SegaAmm) (epoch : Nat) (timestamp : Int) (zero_for_one : Bool)
    (amount : Nat) (input_mint : Pubkey) : Except String Quote :=
  if ¬ self.pool_state.get_status_by_bit PoolStatusBitIndex.Swap
      ∨ cast_i64_u64 timestamp < self.pool_state.open_time then
    Except.error "Pool is not trading"
  else
  match self.amm_config with
  | none => Except.error "Missing AmmConfig"
  | some amm_config =>
  match self.token_mints_and_token_programs with
  | none => Except.error "Missing token mints and token programs"
  | some tm =>
  match deduct_transfer_fee
      (if zero_for_one then tm.token0_mint.transfer_fee_config
       else tm.token1_mint.transfer_fee_config) epoch amount with
  | Except.error e => Except.error e
  | Except.ok actual_amount_in =>
  if actual_amount_in = 0 then Except.error "Amount too low"
  else
  match self.vault_0_amount with
  | none => Except.error "Vault 0 missing or frozen"
  | some vault_0 =>
  match self.vault_1_amount with
  | none => Except.error "Vault 1 missing or frozen"
  | some vault_1 =>
  match vault_amount_without_fee self.pool_state vault_0 vault_1 with
  | (some total_token_0_amount, some total_token_1_amount) =>
    (match swap_base_input actual_amount_in total_token_0_amount total_token_1_amount
        amm_config.trade_fee_rate amm_config.protocol_fee_rate amm_config.fund_fee_rate with
     | none => Except.error "Swap failed"
     | some swap_result =>
     match u64_try_from swap_result.destination_amount_swapped with
     | Except.error e => Except.error e
     | Except.ok amount_out =>
     match deduct_transfer_fee
         (if zero_for_one then tm.token1_mint.transfer_fee_config
          else tm.token0_mint.transfer_fee_config) epoch amount_out with
     | Except.error e => Except.error e
     | Except.ok actual_amount_out =>
     match u64_try_from swap_result.source_amount_swapped with
     | Except.error e => Except.error e
     | Except.ok in_amount =>
     match u64_try_from swap_result.trade_fee with
     | Except.error e => Except.error e
     | Except.ok fee_amount =>
       Except.ok
         { in_amount := in_amount
           out_amount := actual_amount_out
           fee_mint := input_mint
           fee_amount := fee_amount
           fee_pct := (swap_result.trade_fee : Rat) / 100 })
  | _ => Except.error "Vault amount underflow"

/-- `SegaAmm::quote`: computes `zero_for_one` from the request and runs
the body. -/
def quote (self : SegaAmm) (epoch : Nat) (timestamp : Int) (quote_params : QuoteParams) :
    Except String Quote :=
  quote_aux self epoch timestamp
    (decide (quote_params.input_mint = self.pool_state.token_0_mint))
    quote_params.amount quote_params.input_mint

/-- A swap-plan request (`SwapParams` restricted to the fields read). -/
structure SwapParams where
  source_mint : Pubkey
  token_transfer_authority : Pubkey
  source_token_account : Pubkey
  destination_token_account : Pubkey
deriving DecidableEq

/-- The `SegaSwap` accounts record (`sega/swap.rs`), in source field
order. -/
structure SegaSwap where
  program : Pubkey
  payer : Pubkey
  authority : Pubkey
  amm_config : Pubkey
  pool_state : Pubkey
  input_token_account : Pubkey
  output_token_account : Pubkey
  input_vault : Pubkey
  output_vault : Pubkey
  input_token_program : Pubkey
  output_token_program : Pubkey
  input_token_mint : Pubkey
  output_token_mint : Pubkey
  observation_state : Pubkey
deriving DecidableEq

/-- Modelled from the spec: `ToAccountMetas` for `SegaSwap` lives in
`sega/swap.rs`, not under `src/`; the spec asks for a fixed-length
14-entry ordered account list, emitted here in field-declaration order
(roles are not modelled). -/
def SegaSwap.to_account_metas (s : SegaSwap) : List Pubkey :=
  [s.program, s.payer, s.authority, s.amm_config, s.pool_state,
   s.input_token_account, s.output_token_account, s.input_vault, s.output_vault,
   s.input_token_program, s.output_token_program, s.input_token_mint,
   s.output_token_mint, s.observation_state]

/-- The protocol tag for the external instruction encoder. -/
inductive SwapVariant where
  | RaydiumCP
deriving DecidableEq

/-- Result of the swap-plan builder. -/
structure SwapAndAccountMetas where
  swap : SwapVariant
  account_metas : List Pubkey
deriving DecidableEq

/-- Modelled from the spec: `Pubkey::create_program_address` derives the
pool authority from the auth seed, the bump and the program id. -/
def get_authority (self : SegaAmm) : Pubkey :=
  Pubkey.derived self.pool_state.auth_bump self.program_id

/-- `SegaAmm::get_accounts_len`. -/
def get_accounts_len (_self : SegaAmm) : Nat := 14

/-- `SegaAmm::get_swap_and_account_metas` (lines 273-336): requires the
token mints to have been populated; routes the input-side accounts to the
side whose mint equals `source_mint`, with any other mint falling to the
token-1 branch. -/
def get_swap_and_account_metas (self : SegaAmm) (swap_params : SwapParams) :
    Except String SwapAndAccountMetas :=
  match self.token_mints_and_token_programs with
  | none => Except.error "Missing token mints and token programs"
  | some tm =>
    let sides :=
      if swap_params.source_mint = self.pool_state.token_0_mint then
        (tm.token0_program, self.pool_state.token_0_vault, self.pool_state.token_0_mint,
         tm.token1_program, self.pool_state.token_1_vault, self.pool_state.token_1_mint)
      else
        (tm.token1_program, self.pool_state.token_1_vault, self.pool_state.token_1_mint,
         tm.token0_program, self.pool_state.token_0_vault, self.pool_state.token_0_mint)
    Except.ok
      { swap := SwapVariant.RaydiumCP
        account_metas :=
          SegaSwap.to_account_metas
            { program := self.program_id
              payer := swap_params.token_transfer_authority
              authority := get_authority self
              amm_config := self.pool_state.amm_config
              pool_state := self.key
              input_token_account := swap_params.source_token_account
              output_token_account := swap_params.destination_token_account
              input_vault := sides.2.1
              output_vault := sides.2.2.2.2.1
              input_token_program := sides.1
              output_token_program := sides.2.2.2.1
              input_token_mint := sides.2.2.1
              output_token_mint := sides.2.2.2.2.2
              observation_state := self.pool_state.observation_key } }

end SegaSpec

namespace SegaSpec

/-! ## Concrete fixtures used by witnesses and counterexamples -/

/-- A plain pool state: trading bit (bit 2) set, zero fee accumulators. -/
def basePool : PoolState :=
  { amm_config := pk 10, token_0_vault := pk 11, token_1_vault := pk 12,
    token_0_mint := pk 13, token_1_mint := pk 14,
    token_0_program := pk 15, token_1_program := pk 16,
    observation_key := pk 17, auth_bump := 255, status := 4, open_time := 0,
    protocol_fees_token_0 := 0, protocol_fees_token_1 := 0,
    fund_fees_token_0 := 0, fund_fees_token_1 := 0 }

/-- A plain fee configuration (trade fee 25/10000). -/
def baseConfig : AmmConfig :=
  { trade_fee_rate := 2500, protocol_fee_rate := 120000, fund_fee_rate := 40000 }

/-- Token mints without transfer-fee extensions. -/
def baseTokenMints : TokenMints :=
  { token0 := pk 13, token1 := pk 14,
    token0_mint := { transfer_fee_config := none },
    token1_mint := { transfer_fee_config := none },
    token0_program := pk 15, token1_program := pk 16 }

/-- A fully updated instance over `basePool`. -/
def readyAmm : SegaAmm :=
  { key := pk 1, pool_state := basePool, amm_config := some baseConfig,
    vault_0_amount := some 1000000, vault_1_amount := some 2000000,
    token_mints_and_token_programs := some baseTokenMints, program_id := pk 2 }

/-! ## Helper lemmas -/

/-- `ceil_div` agrees with Mathlib's ceiling division on `Nat`. -/
theorem ceil_div_eq_ceilDiv (a b : Nat) : ceil_div a b = a ⌈/⌉ b :=
  (Nat.ceilDiv_eq_add_pred_div a b).symm

/-- `b * ceil_div a b` dominates `a`. -/
theorem le_mul_ceil_div (a b : Nat) (hb : 0 < b) : a ≤ b * ceil_div a b := by
  rw [ceil_div_eq_ceilDiv]
  exact (ceilDiv_le_iff_le_mul hb).1 le_rfl

/-- `ceil_div a b ≤ c` whenever `a ≤ b * c`. -/
theorem ceil_div_le_of_le_mul {a b c : Nat} (hb : 0 < b) (h : a ≤ b * c) :
    ceil_div a b ≤ c := by
  rw [ceil_div_eq_ceilDiv]
  exact (ceilDiv_le_iff_le_mul hb).2 h

/-- A successful `swap_base_input` consumes the whole input. -/
theorem swap_base_input_source {a x y tfr pfr ffr : Nat} {r : SwapResult}
    (h : swap_base_input a x y tfr pfr ffr = some r) : r.source_amount_swapped = a := by
  unfold swap_base_input at h
  split at h
  · exact absurd h (by simp)
  · simp only [Option.some.injEq] at h
    rw [← h]

/-- A successful `u64` narrowing is the identity. -/
theorem u64_try_from_ok {n m : Nat} (h : u64_try_from n = Except.ok m) : m = n := by
  unfold u64_try_from at h
  split at h
  · exact (Except.ok.injEq _ _ ▸ congrArg id h).symm ▸ (Except.ok.inj h).symm
  · exact absurd h (by simp)

/-- C8: for positive reserves, a successful `swap_base_input` does not
decrease the constant product: with `amount_in_after_fee = amount_in -
trade_fee`, the post-swap product `(reserve_in + amount_in_after_fee) *
(reserve_out - destination_amount_swapped)` is at least `reserve_in *
reserve_out`. -/
theorem c8_swap_base_input_invariant (amount_in reserve_in reserve_out tfr pfr ffr : Nat)
    (r : SwapResult) (hin : 0 < reserve_in) (hout : 0 < reserve_out)
    (h : swap_base_input amount_in reserve_in reserve_out tfr pfr ffr = some r) :
    reserve_in * reserve_out ≤
      (reserve_in + (amount_in - r.trade_fee)) * (reserve_out - r.destination_amount_swapped) := by
  unfold swap_base_input at h
  rw [if_neg (by push_neg; omega)] at h
  simp only [Option.some.injEq] at h
  subst h
  simp only
  set after := amount_in - ceil_div (amount_in * tfr) FEE_DENOMINATOR with hafter
  set d := reserve_in + after with hd
  have hdpos : 0 < d := by omega
  set c := ceil_div (reserve_in * reserve_out) d with hc
  have hcy : c ≤ reserve_out := by
    apply ceil_div_le_of_le_mul hdpos
    calc reserve_in * reserve_out ≤ d * reserve_out :=
          Nat.mul_le_mul_right _ (by omega)
      _ = d * reserve_out := rfl
  have hsub : reserve_out - (reserve_out - c) = c := by omega
  rw [hsub]
  calc reserve_in * reserve_out ≤ d * c := le_mul_ceil_div _ _ hdpos
    _ = (reserve_in + after) * c := by rw [hd]

end SegaSpec

namespace SegaSpec

/-- The result of `swap_base_input` on the spec's scenario inputs. -/
def c8_result : SwapResult :=
  { source_amount_swapped := 10000, destination_amount_swapped := 19752, trade_fee := 25 }

/-- Witness for C8 at the spec's scenario: reserves (1,000,000; 2,000,000),
trade-fee rate 25/10,000, input 10,000. -/
theorem c8_swap_base_input_invariant_witness :
    0 < 1000000 ∧ 0 < 2000000 ∧
    swap_base_input 10000 1000000 2000000 2500 120000 40000 = some c8_result ∧
    1000000 * 2000000 ≤
      (1000000 + (10000 - c8_result.trade_fee)) *
        (2000000 - c8_result.destination_amount_swapped) :=
  ⟨by decide, by decide, by decide,
    c8_swap_base_input_invariant 10000 1000000 2000000 2500 120000 40000 c8_result
      (by decide) (by decide) (by decide)⟩

/-- A pool that opens at time 100 but is otherwise quotable. -/
def c4_amm : SegaAmm := { readyAmm with pool_state := { basePool with open_time := 100 } }

/-- C4 counterexample: the trading bit is set, the current timestamp `-1`
is strictly less than `open_time = 100` as signed values, yet `quote`
succeeds, because the code compares `timestamp as u64` (which maps `-1` to
`2^64 - 1`) against `open_time`. -/
theorem c4_counterexample :
    c4_amm.pool_state.get_status_by_bit PoolStatusBitIndex.Swap = true ∧
    (-1 : Int) < (c4_amm.pool_state.open_time : Int) ∧
    ∃ q, quote c4_amm 0 (-1) { input_mint := pk 13, amount := 10000 } = Except.ok q
      ∧ q.in_amount = 10000 ∧ q.out_amount = 19752 :=
  ⟨by decide, by decide, _, rfl, rfl, rfl⟩

/-- C4 (amended): `quote` fails with "Pool is not trading" exactly on the
condition the code checks: the trading-status bit unset, or the current
timestamp reinterpreted as an unsigned 64-bit value (`timestamp as u64`)
strictly below `open_time`; a negative timestamp reinterprets to a value
`≥ 2^63` and so triggers the failure only against a huge `open_time`. -/
theorem c4_not_trading_amended (self : SegaAmm) (epoch : Nat) (timestamp : Int)
    (p : QuoteParams)
    (h : self.pool_state.get_status_by_bit PoolStatusBitIndex.Swap = false
        ∨ cast_i64_u64 timestamp < self.pool_state.open_time) :
    quote self epoch timestamp p = Except.error "Pool is not trading" := by
  unfold quote quote_aux
  rw [if_pos]
  rcases h with h | h
  · exact Or.inl (by simp [h])
  · exact Or.inr h

/-- A pool whose trading-status bit is cleared. -/
def c4_halted_amm : SegaAmm := { readyAmm with pool_state := { basePool with status := 0 } }

/-- Witness for the amended C4: with the trading bit cleared every quote
fails with "Pool is not trading". -/
theorem c4_not_trading_amended_witness :
    quote c4_halted_amm 0 0 { input_mint := pk 13, amount := 10000 } =
      Except.error "Pool is not trading" :=
  c4_not_trading_amended c4_halted_amm 0 0 _ (Or.inl (by decide))

/-- C6: quoting a freshly constructed instance (no `update` yet) always
returns an explicit error: either the trading check fails, or the missing
`AmmConfig` is reported. -/
theorem c6_quote_before_update (keyed_account : KeyedAccount) (amm : SegaAmm)
    (h : from_keyed_account keyed_account = Except.ok amm)
    (epoch : Nat) (timestamp : Int) (p : QuoteParams) :
    ∃ msg, quote amm epoch timestamp p = Except.error msg
      ∧ (msg = "Pool is not trading" ∨ msg = "Missing AmmConfig") := by
  unfold from_keyed_account at h
  split at h
  · exact Except.noConfusion h
  · replace h := Except.ok.inj h
    subst h
    unfold quote quote_aux
    split
    · exact ⟨_, rfl, Or.inl rfl⟩
    · exact ⟨_, rfl, Or.inr rfl⟩

/-- Witness for C6: a freshly constructed instance over `basePool`. -/
theorem c6_quote_before_update_witness :
    ∃ msg,
      quote
        { key := pk 1, pool_state := basePool, amm_config := none,
          vault_0_amount := none, vault_1_amount := none,
          token_mints_and_token_programs := none, program_id := pk 2 }
        0 0 { input_mint := pk 13, amount := 10000 } = Except.error msg
      ∧ (msg = "Pool is not trading" ∨ msg = "Missing AmmConfig") :=
  c6_quote_before_update
    { key := pk 1, account := { data := AccountData.poolData basePool, owner := pk 2 } }
    _ rfl 0 0 _

/-- The pool state delivered by the C2 counterexample's update bytes:
differs from `basePool` in `open_time`. -/
def c2_new_pool : PoolState := { basePool with open_time := 777 }

/-- An update bundle with fresh, valid pool bytes but no mint bytes. -/
def c2_map : AccountMap :=
  fun k => if k = pk 1 then some (AccountData.poolData c2_new_pool) else none

/-- C2 counterexample: the update fails (mint bytes missing), yet
`pool_state` has already been replaced — the failed update is not
all-or-nothing. -/
theorem c2_counterexample :
    (update readyAmm c2_map).2 = Except.error "Token 0 mint not found" ∧
    (update readyAmm c2_map).1.pool_state ≠ readyAmm.pool_state := by
  refine ⟨by decide, by decide⟩

/-- C2 (amended): `update` leaves the state unchanged when the pool bytes
themselves are missing or undecodable (the first step of the sequence);
later failures run after `pool_state` has already been replaced. -/
theorem c2_update_pool_failure_amended (self : SegaAmm) (account_map : AccountMap)
    (h : try_get_account_data account_map self.key = none
        ∨ ∃ d, try_get_account_data account_map self.key = some d
            ∧ PoolState.try_deserialize d = none) :
    (update self account_map).1 = self ∧
    ∃ msg, (update self account_map).2 = Except.error msg := by
  unfold update
  rcases h with h | ⟨d, hd, hds⟩
  · rw [h]
    exact ⟨rfl, _, rfl⟩
  · rw [hd]
    simp only [hds]
    exact ⟨trivial, _, rfl⟩

/-- An update bundle offering no bytes at all. -/
def c2_empty_map : AccountMap := fun _ => none

/-- Witness for the amended C2: an update with no pool bytes fails and
leaves the instance unchanged. -/
theorem c2_update_pool_failure_amended_witness :
    (update readyAmm c2_empty_map).1 = readyAmm ∧
    ∃ msg, (update readyAmm c2_empty_map).2 = Except.error msg :=
  c2_update_pool_failure_amended readyAmm c2_empty_map (Or.inl rfl)

/-- An update bundle with valid pool and config bytes and nothing else. -/
def c3_map : AccountMap :=
  fun k =>
    if k = pk 1 then some (AccountData.poolData basePool)
    else if k = pk 10 then some (AccountData.configData baseConfig)
    else none

/-- C3 counterexample: an update bundle containing valid pool and config
bytes but no mint bytes fails hard with "Token 0 mint not found" instead
of succeeding. -/
theorem c3_counterexample :
    try_get_account_data c3_map readyAmm.key = some (AccountData.poolData basePool) ∧
    try_get_account_data c3_map basePool.amm_config = some (AccountData.configData baseConfig) ∧
    (update readyAmm c3_map).2 = Except.error "Token 0 mint not found" := by
  refine ⟨by decide, by decide, by decide⟩

/-- C3 (amended): when pool, config and both mint bytes are present and
valid, `update` succeeds even though both vault reads resolve to nothing
(absent, undecodable or frozen vault bytes); the vault balances are simply
recorded as absent, deferring the failure to quote time. -/
theorem c3_update_vaults_optional_amended (self : SegaAmm) (account_map : AccountMap)
    (d m0d m1d cd : AccountData) (ps : PoolState) (m0 m1 : MintState) (cfg : AmmConfig)
    (hpd : try_get_account_data account_map self.key = some d)
    (hps : PoolState.try_deserialize d = some ps)
    (hm0d : try_get_account_data account_map ps.token_0_mint = some m0d)
    (hm0 : unpack_mint m0d = some m0)
    (hm1d : try_get_account_data account_map ps.token_1_mint = some m1d)
    (hm1 : unpack_mint m1d = some m1)
    (hcd : try_get_account_data account_map ps.amm_config = some cd)
    (hcfg : AmmConfig.try_deserialize cd = some cfg)
    (hv0 : get_unfrozen_token_amount account_map ps.token_0_vault = none)
    (hv1 : get_unfrozen_token_amount account_map ps.token_1_vault = none) :
    (update self account_map).2 = Except.ok () ∧
    (update self account_map).1.vault_0_amount = none ∧
    (update self account_map).1.vault_1_amount = none ∧
    (update self account_map).1.amm_config = some cfg ∧
    (update self account_map).1.pool_state = ps := by
  unfold update
  simp only [hpd, hps, hm0d, Option.some_bind, hm0, hm1d, hm1, hcd, hcfg, hv0, hv1]
  exact ⟨trivial, trivial, trivial, trivial, trivial⟩

/-- An update bundle with pool, config and mint bytes, one vault frozen
and the other vault absent. -/
def c3_good_map : AccountMap :=
  fun k =>
    if k = pk 1 then some (AccountData.poolData basePool)
    else if k = pk 10 then some (AccountData.configData baseConfig)
    else if k = pk 13 then some (AccountData.mintData { transfer_fee_config := none })
    else if k = pk 14 then some (AccountData.mintData { transfer_fee_config := none })
    else if k = pk 11 then some (AccountData.tokenData { amount := 42, frozen := true })
    else none

/-- Witness for the amended C3: pool, config and mints present, vault 0
frozen and vault 1 absent — the update succeeds with both balances
recorded as absent. -/
theorem c3_update_vaults_optional_amended_witness :
    (update readyAmm c3_good_map).2 = Except.ok () ∧
    (update readyAmm c3_good_map).1.vault_0_amount = none ∧
    (update readyAmm c3_good_map).1.vault_1_amount = none ∧
    (update readyAmm c3_good_map).1.amm_config = some baseConfig ∧
    (update readyAmm c3_good_map).1.pool_state = basePool :=
  c3_update_vaults_optional_amended readyAmm c3_good_map _ _ _ _ basePool
    { transfer_fee_config := none } { transfer_fee_config := none } baseConfig
    rfl rfl rfl rfl rfl rfl rfl rfl (by decide) (by decide)

end SegaSpec

namespace SegaSpec

/-- A pool whose token-0 fee accumulators sum to exactly `2^64`: each is
`2^63`, and the unchecked `u64` addition wraps the sum to `0`. -/
def c1_amm : SegaAmm :=
  { readyAmm with
    pool_state :=
      { basePool with
        protocol_fees_token_0 := 9223372036854775808
        fund_fees_token_0 := 9223372036854775808 }
    vault_0_amount := some 5 }

/-- C1 counterexample: the reported vault-0 balance `5` is far below the
true accumulator sum `2^64`, yet the accumulator addition wraps to `0`
modulo `2^64` and `quote` succeeds instead of failing with
"Vault amount underflow". -/
theorem c1_counterexample :
    c1_amm.vault_0_amount = some 5 ∧
    5 < c1_amm.pool_state.protocol_fees_token_0 + c1_amm.pool_state.fund_fees_token_0 ∧
    u64wrap_add c1_amm.pool_state.protocol_fees_token_0 c1_amm.pool_state.fund_fees_token_0 = 0 ∧
    ∃ q, quote c1_amm 0 0 { input_mint := pk 13, amount := 3 } = Except.ok q
      ∧ q.out_amount = 571428 :=
  ⟨rfl, by decide, by decide, _, rfl, rfl⟩

/-- C1 (amended): once the earlier quote stages pass (pool trading,
config and mints present, vaults present, positive post-transfer-fee
input), `quote` fails with "Vault amount underflow" whenever either vault
balance is below the *wrapped* accumulator sum
`(protocol_fees + fund_fees) mod 2^64`; the subtraction itself never
wraps (it is checked), but the accumulator addition is unchecked and is
performed modulo `2^64`. -/
theorem c1_vault_underflow_amended (self : SegaAmm) (epoch : Nat) (timestamp : Int)
    (p : QuoteParams) (cfg : AmmConfig) (tm : TokenMints) (a v0 v1 : Nat)
    (hbit : self.pool_state.get_status_by_bit PoolStatusBitIndex.Swap = true)
    (hot : self.pool_state.open_time ≤ cast_i64_u64 timestamp)
    (hcfg : self.amm_config = some cfg)
    (htm : self.token_mints_and_token_programs = some tm)
    (hded : deduct_transfer_fee
        (if p.input_mint = self.pool_state.token_0_mint then tm.token0_mint.transfer_fee_config
         else tm.token1_mint.transfer_fee_config) epoch p.amount = Except.ok a)
    (ha : a ≠ 0)
    (hv0 : self.vault_0_amount = some v0)
    (hv1 : self.vault_1_amount = some v1)
    (hunder :
      v0 < u64wrap_add self.pool_state.protocol_fees_token_0 self.pool_state.fund_fees_token_0
      ∨ v1 < u64wrap_add self.pool_state.protocol_fees_token_1 self.pool_state.fund_fees_token_1) :
    quote self epoch timestamp p = Except.error "Vault amount underflow" := by
  have hded2 : deduct_transfer_fee
      (if decide (p.input_mint = self.pool_state.token_0_mint) = true
       then tm.token0_mint.transfer_fee_config
       else tm.token1_mint.transfer_fee_config) epoch p.amount = Except.ok a := by
    by_cases hm : p.input_mint = self.pool_state.token_0_mint
    · simpa [hm] using hded
    · simpa [hm] using hded
  unfold quote quote_aux
  rw [if_neg (by simp [hbit]; omega)]
  simp only [hcfg, htm, hded2, if_neg ha, hv0, hv1]
  rcases hunder with hlt | hlt
  · have h0 : checked_sub v0
        (u64wrap_add self.pool_state.protocol_fees_token_0 self.pool_state.fund_fees_token_0) =
        none := by
      unfold checked_sub
      rw [if_neg (Nat.not_le.mpr hlt)]
    rcases h1 : checked_sub v1
        (u64wrap_add self.pool_state.protocol_fees_token_1 self.pool_state.fund_fees_token_1)
        with _ | w <;>
      simp [vault_amount_without_fee, h0, h1]
  · have h1 : checked_sub v1
        (u64wrap_add self.pool_state.protocol_fees_token_1 self.pool_state.fund_fees_token_1) =
        none := by
      unfold checked_sub
      rw [if_neg (Nat.not_le.mpr hlt)]
    rcases h0 : checked_sub v0
        (u64wrap_add self.pool_state.protocol_fees_token_0 self.pool_state.fund_fees_token_0)
        with _ | w <;>
      simp [vault_amount_without_fee, h0, h1]

/-- A pool whose token-0 accumulators exceed the reported vault balance
without any wrap-around. -/
def c1_under_amm : SegaAmm :=
  { readyAmm with
    pool_state := { basePool with protocol_fees_token_0 := 10 }
    vault_0_amount := some 5 }

/-- Witness for the amended C1: vault-0 balance 5 below accumulator sum
10 makes the quote fail with "Vault amount underflow". -/
theorem c1_vault_underflow_amended_witness :
    quote c1_under_amm 0 0 { input_mint := pk 13, amount := 3 } =
      Except.error "Vault amount underflow" :=
  c1_vault_underflow_amended c1_under_amm 0 0 _ baseConfig baseTokenMints 3 5 2000000
    (by decide) (by decide) rfl rfl (by decide) (by decide) rfl rfl (Or.inl (by decide))

/-- Inversion of a successful quote: the consumed input is positive, and
the fee-percentage field is the trade fee divided by the constant 100. -/
theorem quote_aux_ok_inversion (self : SegaAmm) (epoch : Nat) (timestamp : Int)
    (b : Bool) (amount : Nat) (m : Pubkey) (q : Quote)
    (h : quote_aux self epoch timestamp b amount m = Except.ok q) :
    0 < q.in_amount ∧ q.fee_pct = (q.fee_amount : Rat) / 100 := by
  unfold quote_aux at h
  split at h
  · exact Except.noConfusion h
  split at h
  · exact Except.noConfusion h
  split at h
  · exact Except.noConfusion h
  split at h
  · exact Except.noConfusion h
  next actual_amount_in hded =>
  split at h
  · exact Except.noConfusion h
  next hne0 =>
  split at h
  · exact Except.noConfusion h
  next v0 hv0 =>
  split at h
  · exact Except.noConfusion h
  next v1 hv1 =>
  split at h
  case _ t0 t1 hpair =>
    split at h
    · exact Except.noConfusion h
    next swap_result hswap =>
    split at h
    · exact Except.noConfusion h
    next amount_out hdest =>
    split at h
    · exact Except.noConfusion h
    next actual_amount_out hout =>
    split at h
    · exact Except.noConfusion h
    next in_amount hsrc =>
    split at h
    · exact Except.noConfusion h
    next fee_amount hfee =>
    replace h := Except.ok.inj h
    subst h
    constructor
    · have h1 := u64_try_from_ok hsrc
      have h2 := swap_base_input_source hswap
      simp only [h1, h2]
      omega
    · have h3 := u64_try_from_ok hfee
      simp [h3]
  all_goals exact Except.noConfusion h

end SegaSpec

namespace SegaSpec

/-- C5: once the earlier quote stages pass, a transfer-fee deduction that
leaves an input of `0` makes `quote` fail with "Amount too low"; and no
successful quote ever has a zero consumed input amount. -/
theorem c5_amount_too_low_never_zero :
    (∀ (self : SegaAmm) (epoch : Nat) (timestamp : Int) (p : QuoteParams)
        (cfg : AmmConfig) (tm : TokenMints),
      self.pool_state.get_status_by_bit PoolStatusBitIndex.Swap = true →
      self.pool_state.open_time ≤ cast_i64_u64 timestamp →
      self.amm_config = some cfg →
      self.token_mints_and_token_programs = some tm →
      deduct_transfer_fee
          (if p.input_mint = self.pool_state.token_0_mint then tm.token0_mint.transfer_fee_config
           else tm.token1_mint.transfer_fee_config) epoch p.amount = Except.ok 0 →
      quote self epoch timestamp p = Except.error "Amount too low") ∧
    (∀ (self : SegaAmm) (epoch : Nat) (timestamp : Int) (p : QuoteParams) (q : Quote),
      quote self epoch timestamp p = Except.ok q → 0 < q.in_amount) := by
  constructor
  · intro self epoch timestamp p cfg tm hbit hot hcfg htm hded
    unfold quote quote_aux
    rw [if_neg (by simp [hbit]; omega)]
    simp [hcfg, htm, hded]
  · intro self epoch timestamp p q h
    exact (quote_aux_ok_inversion self epoch timestamp _ _ _ q h).1

/-- A 100%-rate transfer-fee schedule with a high cap. -/
def c5_fee_config : TransferFeeConfig :=
  { older_transfer_fee :=
      { epoch := 0, maximum_fee := 1000000000, transfer_fee_basis_points := 10000 }
    newer_transfer_fee :=
      { epoch := 0, maximum_fee := 1000000000, transfer_fee_basis_points := 10000 } }

/-- A quotable pool whose token-0 mint levies a 100% transfer fee. -/
def c5_amm : SegaAmm :=
  { readyAmm with
    token_mints_and_token_programs :=
      some { baseTokenMints with token0_mint := { transfer_fee_config := some c5_fee_config } } }

/-- Witness for C5: a 100% transfer fee on 50 units fails with "Amount
too low", and a plain successful quote has a positive consumed amount. -/
theorem c5_amount_too_low_never_zero_witness :
    quote c5_amm 7 0 { input_mint := pk 13, amount := 50 } = Except.error "Amount too low" ∧
    ∃ q, quote readyAmm 0 0 { input_mint := pk 13, amount := 10000 } = Except.ok q
      ∧ 0 < q.in_amount :=
  ⟨c5_amount_too_low_never_zero.1 c5_amm 7 0 _ baseConfig _
      (by decide) (by decide) rfl rfl (by decide),
   _, rfl,
   c5_amount_too_low_never_zero.2 readyAmm 0 0 { input_mint := pk 13, amount := 10000 } _ rfl⟩

/-- C7: the `fee_pct` of every successful quote is the curve's trade fee
(the `fee_amount` of the quote) divided by the constant 100, not the fee
normalized by the trade size. -/
theorem c7_fee_pct_constant (self : SegaAmm) (epoch : Nat) (timestamp : Int)
    (p : QuoteParams) (q : Quote) (h : quote self epoch timestamp p = Except.ok q) :
    q.fee_pct = (q.fee_amount : Rat) / 100 :=
  (quote_aux_ok_inversion self epoch timestamp _ _ _ q h).2

/-- Witness for C7 on a concrete successful quote. -/
theorem c7_fee_pct_constant_witness :
    ∃ q, quote readyAmm 0 0 { input_mint := pk 13, amount := 10000 } = Except.ok q
      ∧ q.fee_pct = (q.fee_amount : Rat) / 100 :=
  ⟨_, rfl, c7_fee_pct_constant readyAmm 0 0 { input_mint := pk 13, amount := 10000 } _ rfl⟩

/-- C9: `get_accounts_len` is 14; the plan builder fails with the
missing-token-metadata error when the token mints have not been populated
by an `update`; otherwise it emits the 14-entry account list in `SegaSwap`
field order, with the input-side slots (input vault, input token program,
input token mint — positions 7, 9, 11) taken from token 0 and the
output-side slots (positions 8, 10, 12) from token 1 exactly when the
requested source mint equals the pool's token-0 mint, and reversed
otherwise. -/
theorem c9_plan_account_ordering (self : SegaAmm) (p : SwapParams) :
    get_accounts_len self = 14 ∧
    (self.token_mints_and_token_programs = none →
      get_swap_and_account_metas self p =
        Except.error "Missing token mints and token programs") ∧
    (∀ tm, self.token_mints_and_token_programs = some tm →
      p.source_mint = self.pool_state.token_0_mint →
      get_swap_and_account_metas self p = Except.ok
        { swap := SwapVariant.RaydiumCP
          account_metas :=
            [self.program_id, p.token_transfer_authority, get_authority self,
             self.pool_state.amm_config, self.key, p.source_token_account,
             p.destination_token_account, self.pool_state.token_0_vault,
             self.pool_state.token_1_vault, tm.token0_program, tm.token1_program,
             self.pool_state.token_0_mint, self.pool_state.token_1_mint,
             self.pool_state.observation_key] }) ∧
    (∀ tm, self.token_mints_and_token_programs = some tm →
      p.source_mint ≠ self.pool_state.token_0_mint →
      get_swap_and_account_metas self p = Except.ok
        { swap := SwapVariant.RaydiumCP
          account_metas :=
            [self.program_id, p.token_transfer_authority, get_authority self,
             self.pool_state.amm_config, self.key, p.source_token_account,
             p.destination_token_account, self.pool_state.token_1_vault,
             self.pool_state.token_0_vault, tm.token1_program, tm.token0_program,
             self.pool_state.token_1_mint, self.pool_state.token_0_mint,
             self.pool_state.observation_key] }) := by
  refine ⟨rfl, ?_, ?_, ?_⟩
  · intro h
    simp [get_swap_and_account_metas, h]
  · intro tm htm hsm
    simp [get_swap_and_account_metas, htm, hsm, SegaSwap.to_account_metas]
  · intro tm htm hsm
    simp [get_swap_and_account_metas, htm, hsm, SegaSwap.to_account_metas]

/-- Witness for C9: concrete plans in both directions and the
missing-metadata failure on a fresh instance. -/
theorem c9_plan_account_ordering_witness :
    get_swap_and_account_metas readyAmm
        { source_mint := pk 13, token_transfer_authority := pk 20,
          source_token_account := pk 21, destination_token_account := pk 22 } =
      Except.ok
        { swap := SwapVariant.RaydiumCP
          account_metas :=
            [pk 2, pk 20, get_authority readyAmm, pk 10, pk 1, pk 21, pk 22,
             pk 11, pk 12, pk 15, pk 16, pk 13, pk 14, pk 17] } ∧
    get_swap_and_account_metas readyAmm
        { source_mint := pk 14, token_transfer_authority := pk 20,
          source_token_account := pk 21, destination_token_account := pk 22 } =
      Except.ok
        { swap := SwapVariant.RaydiumCP
          account_metas :=
            [pk 2, pk 20, get_authority readyAmm, pk 10, pk 1, pk 21, pk 22,
             pk 12, pk 11, pk 16, pk 15, pk 14, pk 13, pk 17] } :=
  ⟨(c9_plan_account_ordering readyAmm _).2.2.1 baseTokenMints rfl rfl,
   (c9_plan_account_ordering readyAmm _).2.2.2 baseTokenMints rfl (by decide)⟩

/-- Replace a quote's fee mint. -/
def Quote.set_fee_mint (m : Pubkey) (q : Quote) : Quote := { q with fee_mint := m }

/-- The quote body ignores the request mint except for the `fee_mint`
field of a successful quote. -/
theorem quote_aux_fee_mint_only (self : SegaAmm) (epoch : Nat) (timestamp : Int)
    (b : Bool) (amount : Nat) (m1 m2 : Pubkey) :
    quote_aux self epoch timestamp b amount m1 =
      (quote_aux self epoch timestamp b amount m2).map (Quote.set_fee_mint m1) := by
  unfold quote_aux
  repeat' split
  all_goals simp [Except.map, Quote.set_fee_mint]

/-- C10: neither `quote` nor the plan builder validates that the request
mint belongs to the pool.  A request whose mint differs from the pool's
token-0 mint is processed exactly as a token-1 → token-0 request: the
quote equals the token-1 quote with only the `fee_mint` relabelled to the
foreign mint, and the plan equals the token-1 plan verbatim. -/
theorem c10_no_input_mint_validation (self : SegaAmm) (epoch : Nat) (timestamp : Int)
    (p : QuoteParams) (sp : SwapParams)
    (hq : p.input_mint ≠ self.pool_state.token_0_mint)
    (hs : sp.source_mint ≠ self.pool_state.token_0_mint)
    (hne : self.pool_state.token_1_mint ≠ self.pool_state.token_0_mint) :
    quote self epoch timestamp p =
      (quote self epoch timestamp
          { input_mint := self.pool_state.token_1_mint, amount := p.amount }).map
        (Quote.set_fee_mint p.input_mint) ∧
    get_swap_and_account_metas self sp =
      get_swap_and_account_metas self { sp with source_mint := self.pool_state.token_1_mint } := by
  constructor
  · unfold quote
    simp only [decide_eq_false hq, decide_eq_false hne]
    exact quote_aux_fee_mint_only self epoch timestamp false p.amount p.input_mint
      self.pool_state.token_1_mint
  · unfold get_swap_and_account_metas
    rcases self.token_mints_and_token_programs with _ | tm
    · rfl
    · simp [if_neg hs, if_neg hne]

/-- A mint that belongs to neither side of the base pool. -/
def c10_params : QuoteParams := { input_mint := pk 99, amount := 10000 }

/-- Witness for C10: the foreign-mint quote and plan coincide with the
token-1 ones (up to the quote's `fee_mint`). -/
theorem c10_no_input_mint_validation_witness :
    quote readyAmm 0 0 c10_params =
      (quote readyAmm 0 0 { input_mint := pk 14, amount := 10000 }).map
        (Quote.set_fee_mint (pk 99)) ∧
    get_swap_and_account_metas readyAmm
        { source_mint := pk 99, token_transfer_authority := pk 20,
          source_token_account := pk 21, destination_token_account := pk 22 } =
      get_swap_and_account_metas readyAmm
        { source_mint := pk 14, token_transfer_authority := pk 20,
          source_token_account := pk 21, destination_token_account := pk 22 } :=
  c10_no_input_mint_validation readyAmm 0 0 c10_params _
    (by decide) (by decide) (by decide)

end SegaSpec
